import Mathlib

/-!
Shallow embedding of `src/packages/client/components/interface/admin/ModDashboard.tsx`.

The component consumes loosely-typed JSON report payloads. Optional JSON
fields are modelled as `Option`; JavaScript truthiness of a string-valued
field (`undefined` and `""` are falsy) is modelled by `jtruthy`. The
`a ?? b` operator on such fields is `Option.orElse` (`<|>`), which keeps
`some ""` (an empty string is not nullish).
-/

namespace ModDashboard

/-- JavaScript truthiness of an optional string value: `undefined`/absent and
the empty string are falsy, every other string is truthy. -/
def jtruthy : Option String → Bool
  | none => false
  | some s => s != ""

/-- A snapshot entry's nested `content` record: the identifier fields the
dashboard scans for (`channel_id`, `message_id`, `server_id`). -/
structure SnapshotContent where
  channel_id : Option String := none
  message_id : Option String := none
  server_id : Option String := none
deriving DecidableEq, Repr

/-- One entry of a report's `snapshots` array; `content` may be absent
(the source reads it with optional chaining, `s.content?.…`). -/
structure Snapshot where
  content : Option SnapshotContent := none
deriving DecidableEq, Repr

/-- The nested message object (`report.content.Message` / `.message`); its
`id` is used only when it is a string (`typeof msg.id === "string"`). -/
structure MessageObj where
  id : Option String := none
deriving DecidableEq, Repr

/-- The nested server object (`report.content.Server` / `.server`). -/
structure ServerObj where
  id : Option String := none
deriving DecidableEq, Repr

/-- The nested user object (`report.content.User` / `.user`). -/
structure UserObj where
  id : Option String := none
deriving DecidableEq, Repr

/-- A report's `content` variant: the dashboard probes both the capitalised
and the lowercase key for each of `Message`, `Server`, `User`. -/
structure ReportContent where
  Message : Option MessageObj := none
  message : Option MessageObj := none
  Server : Option ServerObj := none
  server : Option ServerObj := none
  User : Option UserObj := none
  user : Option UserObj := none
deriving DecidableEq, Repr

/-- The fields of a raw report object that the dashboard reads. The source
declares `type Report = any`; this structure records exactly the fields the
component accesses, each optional. -/
structure Report where
  content : Option ReportContent := none
  target_id : Option String := none
  target_display : Option String := none
  type : Option String := none
  snapshots : Option (List Snapshot) := none
  snapshot : Option (List Snapshot) := none
deriving DecidableEq, Repr

/-- A derived moderation action, `{label, enabled, method?, path?}`
(source line 80). -/
structure Action where
  label : String
  enabled : Bool
  method : Option String := none
  path : Option String := none
deriving DecidableEq, Repr

/-- `report?.snapshots ?? report?.snapshot` (source line 84): the effective
snapshot array, preferring the plural field. -/
def effSnapshot (r : Report) : Option (List Snapshot) :=
  r.snapshots <|> r.snapshot

/-- `s.content?.channel_id` for a snapshot entry. -/
def snapChan (s : Snapshot) : Option String :=
  s.content.bind SnapshotContent.channel_id

/-- `s.content?.message_id` for a snapshot entry. -/
def snapMsg (s : Snapshot) : Option String :=
  s.content.bind SnapshotContent.message_id

/-- `s.content?.server_id` for a snapshot entry. -/
def snapSrv (s : Snapshot) : Option String :=
  s.content.bind SnapshotContent.server_id

/-- One iteration of the snapshot loop for the channel id (source line 92):
`if (s.content?.channel_id) channelId = s.content.channel_id;` — an
unconditional overwrite whenever the entry has a truthy `channel_id`. -/
def chanStep (acc : Option String) (s : Snapshot) : Option String :=
  if jtruthy (snapChan s) then snapChan s else acc

/-- One iteration of the snapshot loop for the message id (source line 93):
`if (s.content?.message_id) messageId = messageId ?? s.content.message_id;`
— only fills `messageId` when it is still nullish. -/
def msgStep (acc : Option String) (s : Snapshot) : Option String :=
  if jtruthy (snapMsg s) then acc <|> snapMsg s else acc

/-- One iteration of the context-server loop (source line 123):
`if (s.content?.server_id) ctxServerId = s.content.server_id;` — an
unconditional overwrite, exactly like the channel scan. -/
def srvStep (acc : Option String) (s : Snapshot) : Option String :=
  if jtruthy (snapSrv s) then snapSrv s else acc

/-- Initial `messageId` (source line 89): `content.Message ?? content.message`,
then its `id` when that is a string. -/
def initMessageId (r : Report) : Option String :=
  (r.content.bind fun c => c.Message <|> c.message).bind MessageObj.id

/-- The channel id produced by the snapshot loop alone (source lines 90-95,
the `channelId` assignments). The source's single `for` loop updates
`channelId` and `messageId` independently, so it is split here into one
fold per accumulator over the same list. -/
def scanChannelId (r : Report) : Option String :=
  match effSnapshot r with
  | some l => l.foldl chanStep none
  | none => none

/-- The final `messageId` (source lines 89-95): seeded from
`content.Message.id`, then the snapshot loop fills it only if still unset. -/
def resolveMessageId (r : Report) : Option String :=
  match effSnapshot r with
  | some l => l.foldl msgStep (initMessageId r)
  | none => initMessageId r

/-- ASCII word character of the regex class `[\w-]`: letters, digits,
underscore, or hyphen. -/
def isWordChar (c : Char) : Bool :=
  c.isAlphanum || c == '_' || c == '-'

/-- Case-insensitive literal match: strips `pat` from the front of `cs`,
returning the rest on success. -/
def stripCI : List Char → List Char → Option (List Char)
  | [], cs => some cs
  | _ :: _, [] => none
  | p :: ps, c :: cs => if p.toLower == c.toLower then stripCI ps cs else none

/-- `([\w-]+)` : the greedy capture of one or more word characters; fails on
an empty take. -/
def captureWord (cs : List Char) : Option String :=
  let w := cs.takeWhile isWordChar
  if w.isEmpty then none else some (String.mk w)

/-- Attempt the pattern `channel[:\/]?([\w-]+)` (case-insensitive) anchored at
the start of `cs`: literal `channel`, an optional `:` or `/` (greedy, with
backtracking), then the capture. -/
def tryChannelAt (cs : List Char) : Option String :=
  match stripCI "channel".toList cs with
  | none => none
  | some rest =>
    match rest with
    | c :: tl =>
      if c == ':' || c == '/' then
        match captureWord tl with
        | some w => some w
        | none => captureWord rest
      else captureWord rest
    | [] => captureWord rest

/-- Leftmost match of `/channel[:\/]?([\w-]+)/i`, returning the first capture
group, as in `target_display.match(...)` (source line 98). -/
def regexChannel : List Char → Option String
  | [] => none
  | c :: cs =>
    match tryChannelAt (c :: cs) with
    | some w => some w
    | none => regexChannel cs

/-- The final `channelId` (source lines 90-100): the snapshot scan, then —
when that left `channelId` falsy and `target_display` is a string — the
regex fallback over `target_display`. -/
def resolveChannelId (r : Report) : Option String :=
  if jtruthy (scanChannelId r) then scanChannelId r
  else
    match r.target_display with
    | some td =>
      match regexChannel td.toList with
      | some w => some w
      | none => scanChannelId r
    | none => scanChannelId r

/-- The `serverId` (source lines 109-110): `content.Server.id` /
`content.server.id`, else `target_id` when `target_id` is truthy and
`type === "server"`. -/
def resolveServerId (r : Report) : Option String :=
  (r.content.bind fun c => c.Server <|> c.server).bind ServerObj.id <|>
    (if jtruthy r.target_id && (r.type == some "server") then r.target_id else none)

/-- The `userId` of the kick/ban derivation (source lines 118-119):
`content.User.id` / `content.user.id`, else `target_id` when
`type === "user"` (no truthiness guard on `target_id` here). -/
def resolveUserId (r : Report) : Option String :=
  (r.content.bind fun c => c.User <|> c.user).bind UserObj.id <|>
    (if r.type == some "user" then r.target_id else none)

/-- The `ctxServerId` (source lines 121-124): a second loop over the same
snapshot array, overwriting on every entry with a truthy `server_id`. -/
def resolveCtxServerId (r : Report) : Option String :=
  match effSnapshot r with
  | some l => l.foldl srvStep none
  | none => none

/-- The "Remove Message" action (source lines 102-106): enabled with a
DELETE on `/channels/` ++ channelId ++ `/messages/` ++ messageId when both
ids are truthy, otherwise disabled with no method and no path. The guard
makes both `getD ""` defaults unreachable in the enabled branch. -/
def removeMessageAction (r : Report) : Action :=
  if jtruthy (resolveMessageId r) && jtruthy (resolveChannelId r) then
    { label := "Remove Message", enabled := true, method := some "DELETE",
      path := some ("/channels/" ++ (resolveChannelId r).getD "" ++ "/messages/"
        ++ (resolveMessageId r).getD "") }
  else
    { label := "Remove Message", enabled := false }

/-- The "Remove Server" action (source lines 111-115): enabled with a DELETE
on `/servers/` ++ serverId when the server id is truthy. -/
def removeServerAction (r : Report) : Action :=
  if jtruthy (resolveServerId r) then
    { label := "Remove Server", enabled := true, method := some "DELETE",
      path := some ("/servers/" ++ (resolveServerId r).getD "") }
  else
    { label := "Remove Server", enabled := false }

/-- The "Kick from Server" / "Ban from Server" pair (source lines 125-131):
both enabled — DELETE on the member, PUT on the ban — when the user id and
the context server id are both truthy, otherwise both disabled. -/
def kickBanActions (r : Report) : List Action :=
  if jtruthy (resolveUserId r) && jtruthy (resolveCtxServerId r) then
    [{ label := "Kick from Server", enabled := true, method := some "DELETE",
       path := some ("/servers/" ++ (resolveCtxServerId r).getD "" ++ "/members/"
         ++ (resolveUserId r).getD "") },
     { label := "Ban from Server", enabled := true, method := some "PUT",
       path := some ("/servers/" ++ (resolveCtxServerId r).getD "" ++ "/bans/"
         ++ (resolveUserId r).getD "") }]
  else
    [{ label := "Kick from Server", enabled := false },
     { label := "Ban from Server", enabled := false }]

/-- `deriveActions` (source lines 79-134): the ordered list of candidate
moderation actions pushed onto `actions`. -/
def deriveActions (r : Report) : List Action :=
  removeMessageAction r :: removeServerAction r :: kickBanActions r

/-- An opaque JSON request body, with the distinguished empty object used as
the default (`data.body ?? {}`). -/
inductive JsonBody
  | emptyObject
  | value (s : String)
deriving DecidableEq, Repr

/-- An HTTP request dispatched through the API client: `delete`, `put` or
`post` against a path, the latter two with a body. -/
inductive ApiRequest
  | delete (path : String)
  | put (path : String) (body : JsonBody)
  | post (path : String) (body : JsonBody)
deriving DecidableEq, Repr

/-- `method.toUpperCase()`: JavaScript string upper-casing, character by
character (method strings are ASCII, where this agrees with `Char.toUpper`). -/
def toUpperCase (s : String) : String :=
  String.mk (s.data.map Char.toUpper)

/-- `actionMutation` (source lines 41-52): switches on
`data.method.toUpperCase()` and dispatches DELETE / PUT / POST, defaulting
the body to the empty object for PUT and POST; any other method throws
`Error("Unsupported method")` before any request is made. -/
def actionMutation (method path : String) (body : Option JsonBody) :
    Except String ApiRequest :=
  match toUpperCase method with
  | "DELETE" => Except.ok (ApiRequest.delete path)
  | "PUT" => Except.ok (ApiRequest.put path (body.getD JsonBody.emptyObject))
  | "POST" => Except.ok (ApiRequest.post path (body.getD JsonBody.emptyObject))
  | _ => Except.error "Unsupported method"

/-- Outcome of the synchronous part of `issueStrikeFor` (source lines 57-68):
either the single `showError(new Error("No user id found for this report"))`
with no network call, or the `POST /safety/strikes` body
`{user_id, reason}` handed to `strikeMutation`. -/
inductive StrikeFlow
  | errorNoUser
  | postStrike (user_id : String) (reason : String)
deriving DecidableEq, Repr

/-- `report?.content?.User?.id ?? report?.target_id` (source line 58); note
only the capitalised `User` key is probed here, unlike `deriveActions`. -/
def strikeUserId (r : Report) : Option String :=
  (r.content.bind ReportContent.User).bind UserObj.id <|> r.target_id

/-- `issueStrikeFor` up to its first effect (source lines 57-61): a falsy
`userId` (`!userId`, so absent or empty) aborts with one error notification
and no network call; otherwise the strike is posted with the currently
selected reason. -/
def issueStrikeFor (r : Report) (selectedReason : String) : StrikeFlow :=
  match strikeUserId r with
  | none => StrikeFlow.errorNoUser
  | some uid =>
    if uid == "" then StrikeFlow.errorNoUser
    else StrikeFlow.postStrike uid selectedReason

/-- A strike record as displayed (data model only; fields the view reads). -/
structure Strike where
  user_id : Option String := none
  target : Option String := none
  reason : Option String := none
  created_at : Option String := none
deriving DecidableEq, Repr

/-- Outcome of the backend `GET` underlying a list query: a successful
response (possibly null/absent, the `res ?? []` case) or a thrown error
(the `catch` case). -/
inductive FetchOutcome (α : Type)
  | success (res : Option α)
  | failure
deriving DecidableEq, Repr

/-- The reports query function (source lines 14-22): `res ?? []` on success,
and the swallowed error mapped to `[]` on failure — a total function, so no
error ever propagates to the caller. -/
def reportsQueryFn : FetchOutcome (List Report) → List Report
  | FetchOutcome.success res => res.getD []
  | FetchOutcome.failure => []

/-- The strikes query function (source lines 25-32): identical error
handling against the strikes collection. -/
def strikesQueryFn : FetchOutcome (List Strike) → List Strike
  | FetchOutcome.success res => res.getD []
  | FetchOutcome.failure => []

/-- The expanded-JSON click handler (source line 173):
`setExpanded(expanded() === report.id ? null : report.id)` — the state is a
single optional id, so at most one report is ever expanded. -/
def setExpandedOnClick (expanded : Option String) (reportId : String) :
    Option String :=
  if expanded == some reportId then none else some reportId

/-- A report whose two snapshot entries carry distinct channel ids, plus a
message id, exercising the channel-scan order. -/
def reportC1 : Report :=
  { content := some { Message := some { id := some "m1" } },
    snapshots := some
      [ { content := some { channel_id := some "a" } },
        { content := some { channel_id := some "b" } } ] }

/-- The all-absent report (every field missing). -/
def reportEmpty : Report := {}

/-- A report with two snapshot entries carrying channel ids, followed by an
entry with no channel id; no message. -/
def reportLastChan : Report :=
  { snapshots := some
      [ { content := some { channel_id := some "x" } },
        { content := some { channel_id := some "y" } },
        { content := some { message_id := some "m" } } ] }

/-- A report with a message id in `content.Message` and snapshot entries
carrying a competing message id and two server ids. -/
def reportScan : Report :=
  { content := some { Message := some { id := some "m0" } },
    snapshots := some
      [ { content := some { message_id := some "mA", server_id := some "s1" } },
        { content := some { server_id := some "s2" } } ] }

/-- A report with no `content.Message`, a channel-only snapshot entry
followed by a message-id entry. -/
def reportScan2 : Report :=
  { snapshots := some
      [ { content := some { channel_id := some "c0" } },
        { content := some { message_id := some "mB" } } ] }

/-- A report resolving both a message id and a channel id. -/
def reportMsg : Report :=
  { content := some { Message := some { id := some "m1" } },
    snapshots := some [ { content := some { channel_id := some "c1" } } ] }

/-- A report with a nested `content.User.id` and a `target_id`. -/
def reportUser : Report :=
  { content := some { User := some { id := some "u9" } },
    target_id := some "t1" }

/-- A report with neither `content.User.id` nor `target_id`. -/
def reportNoUser : Report := { target_display := some "x" }

/-- A report with no snapshots whose `target_display` mentions a channel. -/
def reportRegex : Report :=
  { target_display := some "reported in channel:abc123" }

/-! Helper lemmas about the snapshot scans, shared by the claim theorems. -/

/-- The message-id loop never overwrites an already-present accumulator. -/
theorem foldl_msgStep_some (l : List Snapshot) (m : String) :
    l.foldl msgStep (some m) = some m := by
  induction l with
  | nil => rfl
  | cons s t ih =>
    have h : msgStep (some m) s = some m := by
      unfold msgStep; split <;> rfl
    rw [List.foldl_cons, h, ih]

/-- The message-id loop skips entries without a truthy `message_id`. -/
theorem foldl_msgStep_skip (l : List Snapshot)
    (h : ∀ s ∈ l, jtruthy (snapMsg s) = false) :
    l.foldl msgStep none = none := by
  induction l with
  | nil => rfl
  | cons s t ih =>
    have hs : msgStep none s = none := by
      simp [msgStep, h s (List.mem_cons_self s t)]
    rw [List.foldl_cons, hs]
    exact ih fun x hx => h x (List.mem_cons_of_mem s hx)

/-- The channel-id loop skips entries without a truthy `channel_id`. -/
theorem foldl_chanStep_skip (l : List Snapshot) (a : Option String)
    (h : ∀ s ∈ l, jtruthy (snapChan s) = false) :
    l.foldl chanStep a = a := by
  induction l generalizing a with
  | nil => rfl
  | cons s t ih =>
    have hs : chanStep a s = a := by
      simp [chanStep, h s (List.mem_cons_self s t)]
    rw [List.foldl_cons, hs]
    exact ih a fun x hx => h x (List.mem_cons_of_mem s hx)

/-- The context-server loop skips entries without a truthy `server_id`. -/
theorem foldl_srvStep_skip (l : List Snapshot) (a : Option String)
    (h : ∀ s ∈ l, jtruthy (snapSrv s) = false) :
    l.foldl srvStep a = a := by
  induction l generalizing a with
  | nil => rfl
  | cons s t ih =>
    have hs : srvStep a s = a := by
      simp [srvStep, h s (List.mem_cons_self s t)]
    rw [List.foldl_cons, hs]
    exact ih a fun x hx => h x (List.mem_cons_of_mem s hx)

/-- C1 counterexample: on a report whose `snapshots` array holds a first
entry with `content.channel_id = "a"` and a second with `"b"`,
`deriveActions` resolves the channel id to `"b"` — the first entry does NOT
win, the later entry replaces it, and the Remove Message path uses `"b"`. -/
theorem channel_first_wins_cex :
    resolveChannelId reportC1 ≠ some "a" ∧
    resolveChannelId reportC1 = some "b" ∧
    (deriveActions reportC1).head? = some
      { label := "Remove Message", enabled := true, method := some "DELETE",
        path := some "/channels/b/messages/m1" } := by
  refine ⟨?_, ?_, ?_⟩ <;> decide

/-- C1 amended: for every report whose snapshots field is an array,
`deriveActions` resolves the channel id by taking the LAST snapshot entry
whose `content.channel_id` is set (truthy); a later entry with a
`channel_id` always replaces an earlier one. Stated in full generality: an
arbitrary prefix before the last setter and arbitrary non-setter entries
after it. -/
theorem channel_scan_last (r : Report) (l₁ : List Snapshot)
    (sc : SnapshotContent) (c : String) (l₂ : List Snapshot)
    (hs : effSnapshot r = some (l₁ ++ { content := some sc } :: l₂))
    (h2 : ∀ s ∈ l₂, jtruthy (snapChan s) = false)
    (hc : sc.channel_id = some c) (hne : c ≠ "") :
    resolveChannelId r = some c := by
  have hchan : scanChannelId r = some c := by
    unfold scanChannelId
    rw [hs]
    show List.foldl chanStep none (l₁ ++ { content := some sc } :: l₂) = some c
    rw [List.foldl_append, List.foldl_cons]
    have hstep : ∀ a, chanStep a { content := some sc } = some c := by
      intro a; simp [chanStep, snapChan, hc, jtruthy, hne]
    rw [hstep]
    exact foldl_chanStep_skip l₂ (some c) h2
  unfold resolveChannelId
  rw [hchan]
  simp [jtruthy, hne]

/-- Witness for `channel_scan_last` at a concrete report whose last channel
setter is followed by a non-setter entry. -/
theorem channel_scan_last_w : resolveChannelId reportLastChan = some "y" :=
  channel_scan_last reportLastChan
    [{ content := some { channel_id := some "x" } }]
    { channel_id := some "y" } "y"
    [{ content := some { message_id := some "m" } }]
    rfl (by decide) rfl (by decide)

/-- C2 counterexample: `deriveActions` never returns 5 actions — on the
empty report (as on every report) it returns exactly 4. -/
theorem five_actions_cex :
    (deriveActions reportEmpty).length = 4 ∧
    (deriveActions reportEmpty).length ≠ 5 := by
  refine ⟨?_, ?_⟩ <;> decide

/-- C2 amended: for every report, `deriveActions` returns exactly 4 actions,
in the fixed order Remove Message, Remove Server, Kick from Server, Ban
from Server; no action is ever omitted from the list (unresolved actions
appear disabled instead). -/
theorem deriveActions_labels (r : Report) :
    (deriveActions r).map Action.label =
      ["Remove Message", "Remove Server", "Kick from Server", "Ban from Server"] ∧
    (deriveActions r).length = 4 := by
  unfold deriveActions removeMessageAction removeServerAction kickBanActions
  constructor <;> (split <;> split <;> split <;> rfl)

/-- C5: `actionMutation` dispatches DELETE, PUT or POST (matched on the
upper-cased method), defaulting the body to the empty object for PUT and
POST, and for any other method value it fails with "Unsupported method"
without producing any request. -/
theorem actionMutation_spec (m p : String) (b : Option JsonBody) :
    (toUpperCase m = "DELETE" →
      actionMutation m p b = Except.ok (ApiRequest.delete p)) ∧
    (toUpperCase m = "PUT" →
      actionMutation m p b = Except.ok (ApiRequest.put p (b.getD JsonBody.emptyObject))) ∧
    (toUpperCase m = "POST" →
      actionMutation m p b = Except.ok (ApiRequest.post p (b.getD JsonBody.emptyObject))) ∧
    (toUpperCase m ≠ "DELETE" → toUpperCase m ≠ "PUT" → toUpperCase m ≠ "POST" →
      actionMutation m p b = Except.error "Unsupported method") := by
  refine ⟨fun h => ?_, fun h => ?_, fun h => ?_, fun h1 h2 h3 => ?_⟩ <;>
    unfold actionMutation
  · rw [h]; rfl
  · rw [h]; rfl
  · rw [h]; rfl
  · split <;> simp_all

/-- Witness for `actionMutation_spec`: `"patch"` is rejected with the
"Unsupported method" error, `"delete"` dispatches a DELETE. -/
theorem actionMutation_spec_w :
    actionMutation "patch" "/x" none = Except.error "Unsupported method" ∧
    actionMutation "delete" "/x" none = Except.ok (ApiRequest.delete "/x") :=
  ⟨(actionMutation_spec "patch" "/x" none).2.2.2 (by decide) (by decide) (by decide),
   (actionMutation_spec "delete" "/x" none).1 (by decide)⟩

/-- C7: both list queries are total functions of the fetch outcome: a thrown
error and a null/absent response each resolve to the empty list, a present
response resolves to that list — no error ever propagates to the caller. -/
theorem queries_swallow_errors :
    reportsQueryFn FetchOutcome.failure = [] ∧
    reportsQueryFn (FetchOutcome.success none) = [] ∧
    (∀ l, reportsQueryFn (FetchOutcome.success (some l)) = l) ∧
    strikesQueryFn FetchOutcome.failure = [] ∧
    strikesQueryFn (FetchOutcome.success none) = [] ∧
    (∀ l, strikesQueryFn (FetchOutcome.success (some l)) = l) :=
  ⟨rfl, rfl, fun _ => rfl, rfl, rfl, fun _ => rfl⟩

/-- C9: the expanded-JSON state holds a single optional id: clicking expand
on report `b` while `a` is expanded replaces the state with `b` (collapsing
`a`), and clicking expand on the currently expanded report resets the state
to `none`. -/
theorem setExpanded_single (a b : String) (h : a ≠ b) :
    setExpandedOnClick (some a) b = some b ∧
    setExpandedOnClick (some a) a = none := by
  constructor <;> simp [setExpandedOnClick, h]

/-- Witness for `setExpanded_single` at two distinct concrete ids. -/
theorem setExpanded_single_w :
    setExpandedOnClick (some "A") "B" = some "B" ∧
    setExpandedOnClick (some "A") "A" = none :=
  setExpanded_single "A" "B" (by decide)

/-- C3: the message-id scan keeps the first value found — an id taken from
`content.Message.id` is never overridden by snapshot entries, and with no
initial id the first snapshot entry with a truthy `content.message_id` wins
— whereas the context-server scan keeps the LAST snapshot entry whose
`content.server_id` is set. -/
theorem scan_first_last_asymmetry :
    (∀ (r : Report) (m : String),
      initMessageId r = some m → resolveMessageId r = some m) ∧
    (∀ (r : Report) (l₁ : List Snapshot) (sc : SnapshotContent) (c : String)
      (l₂ : List Snapshot),
      initMessageId r = none →
      effSnapshot r = some (l₁ ++ { content := some sc } :: l₂) →
      (∀ s ∈ l₁, jtruthy (snapMsg s) = false) →
      sc.message_id = some c → c ≠ "" →
      resolveMessageId r = some c) ∧
    (∀ (r : Report) (l₁ : List Snapshot) (sc : SnapshotContent) (c : String)
      (l₂ : List Snapshot),
      effSnapshot r = some (l₁ ++ { content := some sc } :: l₂) →
      (∀ s ∈ l₂, jtruthy (snapSrv s) = false) →
      sc.server_id = some c → c ≠ "" →
      resolveCtxServerId r = some c) := by
  refine ⟨?_, ?_, ?_⟩
  · intro r m hinit
    unfold resolveMessageId
    rw [hinit]
    cases h : effSnapshot r with
    | some l => exact foldl_msgStep_some l m
    | none => rfl
  · intro r l₁ sc c l₂ hinit hs h1 hc hne
    unfold resolveMessageId
    rw [hs, hinit]
    show List.foldl msgStep none (l₁ ++ { content := some sc } :: l₂) = some c
    rw [List.foldl_append, foldl_msgStep_skip l₁ h1, List.foldl_cons]
    have hstep : msgStep none { content := some sc } = some c := by
      simp [msgStep, snapMsg, hc, jtruthy, hne]
    rw [hstep]
    exact foldl_msgStep_some l₂ c
  · intro r l₁ sc c l₂ hs h2 hc hne
    unfold resolveCtxServerId
    rw [hs]
    show List.foldl srvStep none (l₁ ++ { content := some sc } :: l₂) = some c
    rw [List.foldl_append, List.foldl_cons]
    have hstep : ∀ a, srvStep a { content := some sc } = some c := by
      intro a; simp [srvStep, snapSrv, hc, jtruthy, hne]
    rw [hstep]
    exact foldl_srvStep_skip l₂ (some c) h2

/-- Witness for `scan_first_last_asymmetry`: the `content.Message.id` of
`reportScan` survives a competing snapshot `message_id`; with no initial id
the first snapshot `message_id` of `reportScan2` wins; and the second
snapshot `server_id` of `reportScan` wins over the first. -/
theorem scan_first_last_asymmetry_w :
    resolveMessageId reportScan = some "m0" ∧
    resolveMessageId reportScan2 = some "mB" ∧
    resolveCtxServerId reportScan = some "s2" :=
  ⟨scan_first_last_asymmetry.1 reportScan "m0" rfl,
   scan_first_last_asymmetry.2.1 reportScan2
     [{ content := some { channel_id := some "c0" } }]
     { message_id := some "mB" } "mB" [] rfl rfl (by decide) rfl (by decide),
   scan_first_last_asymmetry.2.2 reportScan
     [{ content := some { message_id := some "mA", server_id := some "s1" } }]
     { server_id := some "s2" } "s2" [] rfl (by decide) rfl (by decide)⟩

/-- C4: the Remove Message action is the first action of `deriveActions`;
it is enabled iff both a message id and a channel id resolved to truthy
values, in which case its method is DELETE and its path is
`/channels/` ++ channelId ++ `/messages/` ++ messageId; when disabled it
carries no method and no path. -/
theorem remove_message_spec (r : Report) :
    (deriveActions r).head? = some (removeMessageAction r) ∧
    ((removeMessageAction r).enabled = true ↔
      (jtruthy (resolveMessageId r) = true ∧ jtruthy (resolveChannelId r) = true)) ∧
    ((removeMessageAction r).enabled = true →
      (removeMessageAction r).method = some "DELETE" ∧
      (removeMessageAction r).path = some ("/channels/" ++ (resolveChannelId r).getD ""
        ++ "/messages/" ++ (resolveMessageId r).getD "")) ∧
    ((removeMessageAction r).enabled = false →
      (removeMessageAction r).method = none ∧ (removeMessageAction r).path = none) := by
  refine ⟨rfl, ?_, ?_, ?_⟩ <;>
  · unfold removeMessageAction
    by_cases h1 : jtruthy (resolveMessageId r) = true <;>
      by_cases h2 : jtruthy (resolveChannelId r) = true <;>
        simp [h1, h2]

/-- Witness for `remove_message_spec`: on `reportMsg` the first derived
action is an enabled DELETE of `/channels/c1/messages/m1`. -/
theorem remove_message_spec_w :
    (removeMessageAction reportMsg).method = some "DELETE" ∧
    (removeMessageAction reportMsg).path = some ("/channels/"
      ++ (resolveChannelId reportMsg).getD "" ++ "/messages/"
      ++ (resolveMessageId reportMsg).getD "") :=
  (remove_message_spec reportMsg).2.2.1 (by decide)

/-- C6: the strike flow derives the target user id as `content.User.id`
when present, otherwise `target_id`; a falsy derived id yields the single
"no user id found" error and no network call, and a truthy one posts
`{user_id, reason}` to the strike endpoint. -/
theorem issue_strike_spec (r : Report) (reason : String) :
    (∀ uid, (r.content.bind ReportContent.User).bind UserObj.id = some uid →
      strikeUserId r = some uid) ∧
    ((r.content.bind ReportContent.User).bind UserObj.id = none →
      strikeUserId r = r.target_id) ∧
    (jtruthy (strikeUserId r) = false →
      issueStrikeFor r reason = StrikeFlow.errorNoUser) ∧
    (∀ uid, strikeUserId r = some uid → uid ≠ "" →
      issueStrikeFor r reason = StrikeFlow.postStrike uid reason) := by
  refine ⟨?_, ?_, ?_, ?_⟩
  · intro uid h
    unfold strikeUserId
    rw [h]; rfl
  · intro h
    unfold strikeUserId
    rw [h]; rfl
  · intro h
    unfold issueStrikeFor
    cases huid : strikeUserId r with
    | none => rfl
    | some uid =>
      rw [huid] at h
      simp only [jtruthy] at h
      have he : uid = "" := by simpa using h
      simp [he]
  · intro uid h hne
    unfold issueStrikeFor
    rw [h]
    simp [hne]

/-- Witness for `issue_strike_spec`: `reportUser` posts its nested user id
with the selected reason; `reportNoUser` falls back to its (absent)
`target_id` and aborts with the error. -/
theorem issue_strike_spec_w :
    strikeUserId reportUser = some "u9" ∧
    strikeUserId reportNoUser = reportNoUser.target_id ∧
    issueStrikeFor reportNoUser "r" = StrikeFlow.errorNoUser ∧
    issueStrikeFor reportUser "spam" = StrikeFlow.postStrike "u9" "spam" :=
  ⟨(issue_strike_spec reportUser "r").1 "u9" rfl,
   (issue_strike_spec reportNoUser "r").2.1 rfl,
   (issue_strike_spec reportNoUser "r").2.2.1 (by decide),
   (issue_strike_spec reportUser "spam").2.2.2 "u9" rfl (by decide)⟩

/-- C8: when the snapshot scan yields no channel id and `target_display` is
the string "reported in channel:abc123", the regex fallback resolves the
channel id to "abc123". -/
theorem channel_regex_fallback (r : Report)
    (h1 : scanChannelId r = none)
    (h2 : r.target_display = some "reported in channel:abc123") :
    resolveChannelId r = some "abc123" := by
  unfold resolveChannelId
  rw [h1, h2]
  decide

/-- Witness for `channel_regex_fallback` on a snapshot-free report. -/
theorem channel_regex_fallback_w :
    resolveChannelId reportRegex = some "abc123" :=
  channel_regex_fallback reportRegex rfl rfl

/-- Enabledness of the Remove Message action coincides with its method and
path being present. -/
theorem removeMessageAction_inv (r : Report) :
    ((removeMessageAction r).enabled = true ↔
      ((removeMessageAction r).method.isSome = true ∧
       (removeMessageAction r).path.isSome = true)) := by
  unfold removeMessageAction
  split <;> simp

/-- Enabledness of the Remove Server action coincides with its method and
path being present. -/
theorem removeServerAction_inv (r : Report) :
    ((removeServerAction r).enabled = true ↔
      ((removeServerAction r).method.isSome = true ∧
       (removeServerAction r).path.isSome = true)) := by
  unfold removeServerAction
  split <;> simp

/-- The kick/ban pair is either both enabled with their member/ban paths or
both disabled with no method and no path. -/
theorem kickBanActions_cases (r : Report) :
    kickBanActions r =
      [{ label := "Kick from Server", enabled := true, method := some "DELETE",
         path := some ("/servers/" ++ (resolveCtxServerId r).getD "" ++ "/members/"
           ++ (resolveUserId r).getD "") },
       { label := "Ban from Server", enabled := true, method := some "PUT",
         path := some ("/servers/" ++ (resolveCtxServerId r).getD "" ++ "/bans/"
           ++ (resolveUserId r).getD "") }] ∨
    kickBanActions r =
      [{ label := "Kick from Server", enabled := false, method := none, path := none },
       { label := "Ban from Server", enabled := false, method := none, path := none }] := by
  unfold kickBanActions
  split
  · exact Or.inl rfl
  · exact Or.inr rfl

/-- C10: every action of `deriveActions` is enabled iff both its method and
its path are defined; the Kick and Ban actions are always either both
enabled or both disabled; and the singular `snapshot` field is accepted as
the snapshot array exactly when the plural `snapshots` field is absent. -/
theorem actions_invariant :
    (∀ (r : Report), ∀ a ∈ deriveActions r,
      (a.enabled = true ↔ (a.method.isSome = true ∧ a.path.isSome = true))) ∧
    (∀ (r : Report), ∃ k b, (deriveActions r).drop 2 = [k, b] ∧
      k.label = "Kick from Server" ∧ b.label = "Ban from Server" ∧
      k.enabled = b.enabled) ∧
    (∀ (r : Report) (l : List Snapshot),
      deriveActions { r with snapshots := none, snapshot := some l } =
      deriveActions { r with snapshots := some l, snapshot := none }) := by
  refine ⟨?_, ?_, ?_⟩
  · intro r a ha
    have hmem : a = removeMessageAction r ∨ a = removeServerAction r ∨
        a ∈ kickBanActions r := by
      simpa [deriveActions] using ha
    rcases hmem with h | h | h
    · rw [h]; exact removeMessageAction_inv r
    · rw [h]; exact removeServerAction_inv r
    · rcases kickBanActions_cases r with hkb | hkb <;>
      · rw [hkb] at h
        simp only [List.mem_cons, List.not_mem_nil, or_false] at h
        rcases h with h | h <;> rw [h] <;> simp
  · intro r
    have hdrop : (deriveActions r).drop 2 = kickBanActions r := rfl
    rcases kickBanActions_cases r with hkb | hkb <;>
      exact ⟨_, _, hdrop.trans hkb, rfl, rfl, rfl⟩
  · intro r l
    rfl

/-- Witness for `actions_invariant`: the enabled/defined equivalence for a
concrete member of `deriveActions reportEmpty`, the kick/ban pairing on
`reportEmpty`, and the snapshot-field equivalence at a concrete list. -/
theorem actions_invariant_w :
    ((Action.mk "Remove Server" false none none).enabled = true ↔
      ((Action.mk "Remove Server" false none none).method.isSome = true ∧
       (Action.mk "Remove Server" false none none).path.isSome = true)) ∧
    (∃ k b, (deriveActions reportEmpty).drop 2 = [k, b] ∧
      k.label = "Kick from Server" ∧ b.label = "Ban from Server" ∧
      k.enabled = b.enabled) ∧
    deriveActions { reportEmpty with snapshots := none, snapshot := some [] } =
      deriveActions { reportEmpty with snapshots := some [], snapshot := none } :=
  ⟨actions_invariant.1 reportEmpty (Action.mk "Remove Server" false none none) (by decide),
   actions_invariant.2.1 reportEmpty,
   actions_invariant.2.2 reportEmpty []⟩

end ModDashboard
